import Mathlib

/-!
# Verification of the duolingo/slack-mcp session-binding core and tool layer

Shallow embedding of the repository in Lean 4.

* The session store (`auth/session_store.py`, class `SlackSessionStore`) is not part of
  the shipped sources; only its test-suite (`tests/test_session_security.py`) and its
  callers are. Its operations are therefore modelled from the specification
  (sections 3, 4.1, 5, 7 of the design document) and checked against the behaviours
  the test-suite pins down.
* The OAuth handler (`auth/oauth_handler.py`: `validate_session_token`,
  `get_slack_client_for_session`) is likewise absent and is modelled from
  section 4.2 of the specification (fail-closed client acquisition).
* Everything in `slack_tools.py` (date parsing, query building, client acquisition,
  and the five tool functions) is embedded from the source. External effects
  (the FastMCP context, the Slack Web API, the wall clock) are passed in explicitly:
  the wall clock becomes a day-number argument, the Slack client becomes a record of
  response oracles, and Python exceptions raised by the Slack SDK become `Except`
  values fed in by the oracle.
-/

namespace SlackMCP

/-! ## Session store (modelled from the spec) -/

/-- Modelled from the spec: `auth/session_store.py` is not under the shipped sources,
only its tests are.  Per section 3 of the design document the store owns two tables:
the Binding table `session_id -> user_id` (created once per session, never reassigned)
and the Credential table `user_id -> token` (overwritten on refresh).  Both are
modelled as association lists where the most recent entry for a key shadows older
ones (`List.lookup` returns the first hit). -/
structure SlackSessionStore where
  session_users : List (String × String)
  user_tokens : List (String × String)
deriving Repr, DecidableEq

namespace SlackSessionStore

/-- The fresh store used by every test: both tables empty. -/
def empty : SlackSessionStore := ⟨[], []⟩

/-- The binding-conflict message.  The test-suite requires a `ValueError` matching
"already bound to a different user". -/
def bindingConflictMessage (session_id : String) : String :=
  "Session " ++ session_id ++ " is already bound to a different user"

/-- Modelled from the spec: `bind_and_store` / `store_user_token` (section 4.1).
If `session_id` is absent or empty no binding is recorded but the credential is
stored; if `session_id` has no Binding, a Binding and the Credential Record are
created; if it is already bound to the same user only the Credential Record is
overwritten; if it is bound to a different user the call fails with a
binding-conflict error (a Python `ValueError`, modelled as `Except.error`) and
no state is mutated. -/
def store_user_token (st : SlackSessionStore) (user_id token : String)
    (session_id : Option String) : Except String SlackSessionStore :=
  match session_id with
  | none => .ok { st with user_tokens := (user_id, token) :: st.user_tokens }
  | some sid =>
    if sid = "" then
      .ok { st with user_tokens := (user_id, token) :: st.user_tokens }
    else
      match st.session_users.lookup sid with
      | none =>
        .ok { session_users := (sid, user_id) :: st.session_users,
              user_tokens := (user_id, token) :: st.user_tokens }
      | some bound =>
        if bound = user_id then
          .ok { st with user_tokens := (user_id, token) :: st.user_tokens }
        else
          .error (bindingConflictMessage sid)

/-- Modelled from the spec: `lookup_user_for_session` / `get_user_by_session`
(section 4.1).  A total read: the bound user, or absent when the session is
unknown or no session id was supplied. -/
def get_user_by_session (st : SlackSessionStore) (session_id : Option String) :
    Option String :=
  match session_id with
  | none => none
  | some sid => st.session_users.lookup sid

/-- Modelled from the spec: `get_validated_token` / `get_user_token_with_validation`
(section 4.1).  Returns the Credential Record token iff (a) the session id is
present and non-empty, (b) it has a Binding, and (c) that Binding targets the
requested user; in every other case it returns the same absent value. -/
def get_user_token_with_validation (st : SlackSessionStore)
    (requested_user_id : String) (session_id : Option String) : Option String :=
  match session_id with
  | none => none
  | some sid =>
    if sid = "" then none
    else
      match st.session_users.lookup sid with
      | none => none
      | some bound =>
        if bound = requested_user_id then st.user_tokens.lookup requested_user_id
        else none

end SlackSessionStore

/-! ## Claims about the session store -/

open SlackSessionStore

/-- C1: cross-user isolation.  First conjunct: in any state a token for a user is
returned only when the supplied session id has a Binding targeting exactly that
user (the core contract, for every state hence every reachable one).  Second
conjunct: for distinct users A and B bound to distinct sessions S1 and S2 with
stored tokens, the crossed requests return absent and the matched requests
return the stored tokens. -/
theorem c1_cross_user_isolation :
    (∀ (st : SlackSessionStore) (uid : String) (sid : Option String) (t : String),
        st.get_user_token_with_validation uid sid = some t →
        ∃ s, sid = some s ∧ st.session_users.lookup s = some uid) ∧
    (∀ (st : SlackSessionStore) (A B S1 S2 tA tB : String),
        A ≠ B → S1 ≠ S2 → S1 ≠ "" → S2 ≠ "" →
        st.session_users.lookup S1 = some A →
        st.session_users.lookup S2 = some B →
        st.user_tokens.lookup A = some tA →
        st.user_tokens.lookup B = some tB →
        st.get_user_token_with_validation B (some S1) = none ∧
        st.get_user_token_with_validation A (some S2) = none ∧
        st.get_user_token_with_validation A (some S1) = some tA ∧
        st.get_user_token_with_validation B (some S2) = some tB) := by
  constructor
  · intro st uid sid t h
    match sid with
    | none => simp [get_user_token_with_validation] at h
    | some s =>
      refine ⟨s, rfl, ?_⟩
      simp only [get_user_token_with_validation] at h
      split at h
      · exact absurd h (by simp)
      · split at h
        · exact absurd h (by simp)
        · split at h
          · next bound hb heq => rw [hb]; rw [heq]
          · exact absurd h (by simp)
  · intro st A B S1 S2 tA tB hAB _hS hS1 hS2 hb1 hb2 ht1 ht2
    refine ⟨?_, ?_, ?_, ?_⟩ <;>
      simp [get_user_token_with_validation, hS1, hS2, hb1, hb2, hAB, Ne.symm hAB,
        ht1, ht2]

/-- Closed instance of `c1_cross_user_isolation`: the concrete two-user scenario
of the test-suite, with the store reached by binding user_a to session_1 and
user_b to session_2. -/
theorem c1_cross_user_isolation_witness :
    (SlackSessionStore.mk [("session_2", "user_b"), ("session_1", "user_a")]
        [("user_b", "token_b"), ("user_a", "token_a")]).get_user_token_with_validation
        "user_b" (some "session_1") = none ∧
    (SlackSessionStore.mk [("session_2", "user_b"), ("session_1", "user_a")]
        [("user_b", "token_b"), ("user_a", "token_a")]).get_user_token_with_validation
        "user_a" (some "session_2") = none ∧
    (SlackSessionStore.mk [("session_2", "user_b"), ("session_1", "user_a")]
        [("user_b", "token_b"), ("user_a", "token_a")]).get_user_token_with_validation
        "user_a" (some "session_1") = some "token_a" ∧
    (SlackSessionStore.mk [("session_2", "user_b"), ("session_1", "user_a")]
        [("user_b", "token_b"), ("user_a", "token_a")]).get_user_token_with_validation
        "user_b" (some "session_2") = some "token_b" :=
  c1_cross_user_isolation.2 _ "user_a" "user_b" "session_1" "session_2"
    "token_a" "token_b" (by decide) (by decide) (by decide) (by decide)
    (by decide) (by decide) (by decide) (by decide)

/-- Unfolding of `store_user_token` for a present, non-empty session id. -/
theorem store_user_token_some (st : SlackSessionStore) (user_id token sid : String)
    (hsid : sid ≠ "") :
    st.store_user_token user_id token (some sid) =
      match st.session_users.lookup sid with
      | none =>
        .ok { session_users := (sid, user_id) :: st.session_users,
              user_tokens := (user_id, token) :: st.user_tokens }
      | some bound =>
        if bound = user_id then
          .ok { st with user_tokens := (user_id, token) :: st.user_tokens }
        else
          .error (bindingConflictMessage sid) := by
  simp [store_user_token, hsid]

/-- C2: binding immutability with atomic failure.  After a first successful
`store_user_token` binding `sid` to `user_a`, a subsequent call for a different
`user_b` fails with the binding-conflict error, the session is still bound to
`user_a`, and the credential of `user_b` is untouched.  No state is mutated:
the failing call returns only the error, so the store stays `st1`. -/
theorem c2_binding_immutability
    (st st1 : SlackSessionStore) (user_a user_b tok_a tok_b sid : String)
    (hsid : sid ≠ "") (hne : user_b ≠ user_a)
    (h1 : st.store_user_token user_a tok_a (some sid) = .ok st1) :
    st1.store_user_token user_b tok_b (some sid) =
      .error (bindingConflictMessage sid) ∧
    st1.get_user_by_session (some sid) = some user_a ∧
    st1.user_tokens.lookup user_b = st.user_tokens.lookup user_b := by
  have hbb : (user_b == user_a) = false := beq_eq_false_iff_ne.mpr hne
  have hne' : ¬ user_a = user_b := fun h => hne h.symm
  rw [store_user_token_some _ _ _ _ hsid] at h1
  have hstate : st1.session_users.lookup sid = some user_a ∧
      st1.user_tokens = (user_a, tok_a) :: st.user_tokens := by
    rcases hb : st.session_users.lookup sid with _ | bound
    · simp only [hb] at h1
      injection h1 with h1
      subst h1
      constructor
      · simp [List.lookup]
      · rfl
    · simp only [hb] at h1
      by_cases hbu : bound = user_a
      · rw [if_pos hbu] at h1
        injection h1 with h1
        subst h1
        exact ⟨by rw [hb, hbu], rfl⟩
      · rw [if_neg hbu] at h1
        exact absurd h1 (by simp)
  obtain ⟨hbound, htoks⟩ := hstate
  refine ⟨?_, ?_, ?_⟩
  · rw [store_user_token_some _ _ _ _ hsid]
    simp only [hbound, if_neg hne']
  · simp [get_user_by_session, hbound]
  · rw [htoks]
    simp [List.lookup, hbb]

/-- Closed instance of `c2_binding_immutability`: binding session_1 to user_a
from the empty store, then attempting to rebind it to user_b. -/
theorem c2_binding_immutability_witness :
    (SlackSessionStore.mk [("session_1", "user_a")] [("user_a", "token_a")]).store_user_token
        "user_b" "token_b" (some "session_1") =
      .error (bindingConflictMessage "session_1") ∧
    (SlackSessionStore.mk [("session_1", "user_a")] [("user_a", "token_a")]).get_user_by_session
        (some "session_1") = some "user_a" ∧
    (SlackSessionStore.mk [("session_1", "user_a")]
        [("user_a", "token_a")]).user_tokens.lookup "user_b" =
      SlackSessionStore.empty.user_tokens.lookup "user_b" :=
  c2_binding_immutability SlackSessionStore.empty _ "user_a" "user_b"
    "token_a" "token_b" "session_1" (by decide) (by decide) rfl

/-- The validated read as a single guarded lookup: the stored token when the
session id is present, non-empty and bound to the requested user, else `none`. -/
theorem get_user_token_with_validation_eq
    (st : SlackSessionStore) (uid : String) (sid : Option String) :
    st.get_user_token_with_validation uid sid =
      if ∃ s, sid = some s ∧ s ≠ "" ∧ st.session_users.lookup s = some uid then
        st.user_tokens.lookup uid
      else none := by
  match sid with
  | none => simp [get_user_token_with_validation]
  | some s =>
    simp only [get_user_token_with_validation]
    by_cases hs : s = ""
    · simp [hs]
    · simp only [if_neg hs]
      match hb : st.session_users.lookup s with
      | none => simp [hs, hb]
      | some bound =>
        by_cases hbu : bound = uid
        · simp [hs, hb, hbu]
        · simp [hs, hb, hbu]

/-- C3: fail-closed iff-characterisation of token reads.  First conjunct: the
read returns `some t` iff the session id is present and non-empty, its Binding
targets the requested user, and `t` is the stored credential.  Second conjunct:
whenever those conditions fail the read returns the single absent value `none`,
even when a Credential Record for the requested user exists. -/
theorem c3_get_validated_token_iff :
    (∀ (st : SlackSessionStore) (uid : String) (sid : Option String) (t : String),
        st.get_user_token_with_validation uid sid = some t ↔
          ((∃ s, sid = some s ∧ s ≠ "" ∧ st.session_users.lookup s = some uid) ∧
            st.user_tokens.lookup uid = some t)) ∧
    (∀ (st : SlackSessionStore) (uid : String) (sid : Option String),
        (¬ ∃ s, sid = some s ∧ s ≠ "" ∧ st.session_users.lookup s = some uid) →
        st.get_user_token_with_validation uid sid = none) := by
  have hchar := get_user_token_with_validation_eq
  constructor
  · intro st uid sid t
    rw [hchar]
    by_cases h : ∃ s, sid = some s ∧ s ≠ "" ∧ st.session_users.lookup s = some uid
    · simp [h]
    · simp [h]
  · intro st uid sid h
    rw [hchar, if_neg h]

/-- Closed instance of `c3_get_validated_token_iff`: with no session id the read
is denied even though user_a has a stored credential. -/
theorem c3_get_validated_token_iff_witness :
    (SlackSessionStore.mk [("session_1", "user_a")]
        [("user_a", "token_a")]).get_user_token_with_validation "user_a" none = none :=
  c3_get_validated_token_iff.2
    (SlackSessionStore.mk [("session_1", "user_a")] [("user_a", "token_a")])
    "user_a" none (by simp)

/-- State facts about a successful `store_user_token` with a non-empty session
id: the session is bound to the caller, the credential table gains the new
record at the front, and every other session keeps its binding. -/
theorem store_user_token_ok_facts
    (st st1 : SlackSessionStore) (u tok sid : String) (hsid : sid ≠ "")
    (h : st.store_user_token u tok (some sid) = .ok st1) :
    st1.session_users.lookup sid = some u ∧
    st1.user_tokens = (u, tok) :: st.user_tokens ∧
    (∀ s, s ≠ sid → st1.session_users.lookup s = st.session_users.lookup s) := by
  rw [store_user_token_some _ _ _ _ hsid] at h
  rcases hb : st.session_users.lookup sid with _ | bound
  · simp only [hb] at h
    injection h with h
    subst h
    refine ⟨by simp [List.lookup], rfl, ?_⟩
    intro s hs
    simp [List.lookup, beq_eq_false_iff_ne.mpr hs]
  · simp only [hb] at h
    by_cases hbu : bound = u
    · rw [if_pos hbu] at h
      injection h with h
      subst h
      exact ⟨by rw [hb, hbu], rfl, fun s _ => rfl⟩
    · rw [if_neg hbu] at h
      exact absurd h (by simp)

/-- C4: refresh preserves binding.  When `sid` is already bound to `user_a`, a
second `store_user_token` for the same user succeeds, the Binding table is
completely unchanged (so `get_user_by_session` still answers `user_a`), and the
validated read now returns the new token. -/
theorem c4_refresh_preserves_binding
    (st : SlackSessionStore) (user_a new_token sid : String)
    (hsid : sid ≠ "") (hbound : st.session_users.lookup sid = some user_a) :
    ∃ st2, st.store_user_token user_a new_token (some sid) = .ok st2 ∧
      st2.session_users = st.session_users ∧
      st2.get_user_by_session (some sid) = some user_a ∧
      st2.get_user_token_with_validation user_a (some sid) = some new_token := by
  refine ⟨{ st with user_tokens := (user_a, new_token) :: st.user_tokens }, ?_, rfl, ?_, ?_⟩
  · rw [store_user_token_some _ _ _ _ hsid]
    simp [hbound]
  · simp [get_user_by_session, hbound]
  · simp [get_user_token_with_validation, hsid, hbound, List.lookup]

/-- Closed instance of `c4_refresh_preserves_binding`: refreshing user_a on
session_1 keeps the binding and serves the new token. -/
theorem c4_refresh_preserves_binding_witness :
    ∃ st2, (SlackSessionStore.mk [("session_1", "user_a")]
        [("user_a", "token_a")]).store_user_token "user_a" "new_token_a"
        (some "session_1") = .ok st2 ∧
      st2.session_users = [("session_1", "user_a")] ∧
      st2.get_user_by_session (some "session_1") = some "user_a" ∧
      st2.get_user_token_with_validation "user_a" (some "session_1") =
        some "new_token_a" :=
  c4_refresh_preserves_binding
    (SlackSessionStore.mk [("session_1", "user_a")] [("user_a", "token_a")])
    "user_a" "new_token_a" "session_1" (by decide) (by decide)

/-- C5: multi-session fan-out.  After user_a binds two distinct sessions (both
calls succeeding), the validated read returns the token under each session
independently; the two Bindings share the single Credential Record. -/
theorem c5_multi_session_fan_out
    (st st1 st2 : SlackSessionStore) (user_a tok s1 s2 : String)
    (h1 : s1 ≠ "") (h2 : s2 ≠ "") (hne : s1 ≠ s2)
    (hb1 : st.store_user_token user_a tok (some s1) = .ok st1)
    (hb2 : st1.store_user_token user_a tok (some s2) = .ok st2) :
    st2.get_user_token_with_validation user_a (some s1) = some tok ∧
    st2.get_user_token_with_validation user_a (some s2) = some tok := by
  obtain ⟨hs1, ht1, _⟩ := store_user_token_ok_facts st st1 user_a tok s1 h1 hb1
  obtain ⟨hs2, ht2, hframe⟩ := store_user_token_ok_facts st1 st2 user_a tok s2 h2 hb2
  have hs1' : st2.session_users.lookup s1 = some user_a := by
    rw [hframe s1 hne, hs1]
  have htok : st2.user_tokens.lookup user_a = some tok := by
    rw [ht2]
    simp [List.lookup]
  constructor
  · simp [get_user_token_with_validation, h1, hs1', htok]
  · simp [get_user_token_with_validation, h2, hs2, htok]

/-- Closed instance of `c5_multi_session_fan_out`: user_a bound under session_1
and session_2 retrieves token_a through both. -/
theorem c5_multi_session_fan_out_witness :
    (SlackSessionStore.mk [("session_2", "user_a"), ("session_1", "user_a")]
        [("user_a", "token_a"), ("user_a", "token_a")]).get_user_token_with_validation
        "user_a" (some "session_1") = some "token_a" ∧
    (SlackSessionStore.mk [("session_2", "user_a"), ("session_1", "user_a")]
        [("user_a", "token_a"), ("user_a", "token_a")]).get_user_token_with_validation
        "user_a" (some "session_2") = some "token_a" :=
  c5_multi_session_fan_out
    SlackSessionStore.empty
    (SlackSessionStore.mk [("session_1", "user_a")] [("user_a", "token_a")])
    (SlackSessionStore.mk [("session_2", "user_a"), ("session_1", "user_a")]
      [("user_a", "token_a"), ("user_a", "token_a")])
    "user_a" "token_a" "session_1" "session_2" (by decide) (by decide) (by decide)
    rfl rfl

/-- C6: totality of reads.  Both reads are total Lean functions (they can not
raise); the first three conjuncts show each unauthorized or unknown case maps
to the absent value `none`, and the last shows the single mutating operation
`store_user_token` is the one that can fail, returning a distinct error. -/
theorem c6_reads_total :
    (∀ st : SlackSessionStore, st.get_user_by_session none = none) ∧
    (∀ (st : SlackSessionStore) (s : String),
        st.session_users.lookup s = none → st.get_user_by_session (some s) = none) ∧
    (∀ (st : SlackSessionStore) (uid : String) (sid : Option String),
        (¬ ∃ s, sid = some s ∧ s ≠ "" ∧ st.session_users.lookup s = some uid) →
        st.get_user_token_with_validation uid sid = none) ∧
    (∃ (st : SlackSessionStore) (uid tok sid msg : String),
        st.store_user_token uid tok (some sid) = .error msg) := by
  refine ⟨fun st => rfl, ?_, ?_, ?_⟩
  · intro st s h
    simp [get_user_by_session, h]
  · intro st uid sid h
    rw [get_user_token_with_validation_eq, if_neg h]
  · exact ⟨SlackSessionStore.mk [("s1", "a")] [], "b", "t", "s1",
      bindingConflictMessage "s1", rfl⟩

/-- Closed instance of `c6_reads_total`: an unknown session id is answered with
`none` by `get_user_by_session`. -/
theorem c6_reads_total_witness :
    (SlackSessionStore.mk [("session_1", "user_a")]
        [("user_a", "token_a")]).get_user_by_session (some "session_999") = none :=
  c6_reads_total.2.1
    (SlackSessionStore.mk [("session_1", "user_a")] [("user_a", "token_a")])
    "session_999" (by decide)

/-- C9: atomic first-bind.  The specification makes each store operation atomic
(section 5), so two concurrent first-binds of one unbound session by different
users execute in one of the two serial orders; in either order exactly the
first call succeeds and the second fails with the binding-conflict error, so
a binding is never silently overwritten.  Reads in this model only ever see a
store value produced by a completed operation, never a partial write. -/
theorem c9_atomic_first_bind
    (st : SlackSessionStore) (ua ub ta tb sid : String)
    (hsid : sid ≠ "") (hunbound : st.session_users.lookup sid = none)
    (hne : ua ≠ ub) :
    (∃ st1, st.store_user_token ua ta (some sid) = .ok st1 ∧
        st1.store_user_token ub tb (some sid) =
          .error (bindingConflictMessage sid)) ∧
    (∃ st1, st.store_user_token ub tb (some sid) = .ok st1 ∧
        st1.store_user_token ua ta (some sid) =
          .error (bindingConflictMessage sid)) := by
  constructor
  · refine ⟨SlackSessionStore.mk ((sid, ua) :: st.session_users)
      ((ua, ta) :: st.user_tokens), ?_, ?_⟩
    · rw [store_user_token_some _ _ _ _ hsid]
      simp only [hunbound]
    · rw [store_user_token_some _ _ _ _ hsid]
      have : ((sid, ua) :: st.session_users).lookup sid = some ua := by
        simp [List.lookup]
      simp only [this, if_neg hne]
  · refine ⟨SlackSessionStore.mk ((sid, ub) :: st.session_users)
      ((ub, tb) :: st.user_tokens), ?_, ?_⟩
    · rw [store_user_token_some _ _ _ _ hsid]
      simp only [hunbound]
    · rw [store_user_token_some _ _ _ _ hsid]
      have : ((sid, ub) :: st.session_users).lookup sid = some ub := by
        simp [List.lookup]
      simp only [this, if_neg (Ne.symm hne)]

/-- Closed instance of `c9_atomic_first_bind`: mallory and alice racing for the
fresh session s1 from the empty store. -/
theorem c9_atomic_first_bind_witness :
    (∃ st1, SlackSessionStore.empty.store_user_token "alice" "tok-A"
        (some "s1") = .ok st1 ∧
      st1.store_user_token "mallory" "tok-M" (some "s1") =
        .error (bindingConflictMessage "s1")) ∧
    (∃ st1, SlackSessionStore.empty.store_user_token "mallory" "tok-M"
        (some "s1") = .ok st1 ∧
      st1.store_user_token "alice" "tok-A" (some "s1") =
        .error (bindingConflictMessage "s1")) :=
  c9_atomic_first_bind SlackSessionStore.empty "alice" "mallory" "tok-A"
    "tok-M" "s1" (by decide) rfl (by decide)

/-! ## Date handling (`slack_tools.py`)

`datetime.now()` is an ambient input of `_parse_relative_date`; the embedding
passes it explicitly as `today`, the proleptic Gregorian day number of the
current local date (0 = 0001-01-01), which is exactly the part of `now` that
`strftime("%Y-%m-%d")` can observe.  Conversions between day numbers and
(year, month, day) triples use the standard era-based civil-calendar
algorithm. -/

/-- Leap year in the proleptic Gregorian calendar, as used by Python `datetime`. -/
def isLeapYear (y : Nat) : Bool :=
  (y % 4 == 0 && y % 100 != 0) || y % 400 == 0

/-- Length of month `m` of year `y`, the check `datetime.__new__` applies. -/
def daysInMonth (y m : Nat) : Nat :=
  if m = 2 then (if isLeapYear y then 29 else 28)
  else if m = 4 ∨ m = 6 ∨ m = 9 ∨ m = 11 then 30
  else 31

/-- Day number (0 = 0001-01-01) to (year, month, day). -/
def civilFromDays (z0 : Nat) : Nat × Nat × Nat :=
  let z := z0 + 306
  let era := z / 146097
  let doe := z % 146097
  let yoe := (doe - doe / 1460 + doe / 36524 - doe / 146096) / 365
  let y0 := yoe + era * 400
  let doy := doe - (365 * yoe + yoe / 4 - yoe / 100)
  let mp := (5 * doy + 2) / 153
  let d := doy - (153 * mp + 2) / 5 + 1
  let m := if mp < 10 then mp + 3 else mp - 9
  (if m ≤ 2 then y0 + 1 else y0, m, d)

/-- (year, month, day) to day number (0 = 0001-01-01). -/
def daysFromCivil (y m d : Nat) : Nat :=
  let y0 := if m ≤ 2 then y - 1 else y
  let era := y0 / 400
  let yoe := y0 % 400
  let mp := (m + 9) % 12
  let doy := (153 * mp + 2) / 5 + d - 1
  let doe := yoe * 365 + yoe / 4 - yoe / 100 + doy
  era * 146097 + doe - 306

/-- Decimal digits, left-padded with zeros to the given width. -/
def zeroPad (width n : Nat) : String :=
  let s := toString n
  String.mk (List.replicate (width - s.length) '0') ++ s

/-- `strftime("%Y-%m-%d")`.  CPython delegates `%Y` to the platform C library;
for the 4-digit years exercised by every claim below all platforms agree, and
the year is rendered zero-padded to 4 here. -/
def formatYMD : Nat × Nat × Nat → String
  | (y, m, d) => zeroPad 4 y ++ "-" ++ zeroPad 2 m ++ "-" ++ zeroPad 2 d

/-- Numeric value of a run of decimal digits, as Python `int()`. -/
def digitsToNat (cs : List Char) : Nat :=
  cs.foldl (fun acc c => acc * 10 + (c.toNat - 48)) 0

/-- ASCII lower-casing of one character (`str.lower()` on the modelled
alphabet). -/
def lowerChar (c : Char) : Char :=
  if 65 ≤ c.toNat ∧ c.toNat ≤ 90 then Char.ofNat (c.toNat + 32) else c

/-- Split a character list at every occurrence of `sep` (the single-separator
case of `str.split`). -/
def splitOnChar (sep : Char) : List Char → List (List Char)
  | [] => [[]]
  | c :: rest =>
    let r := splitOnChar sep rest
    if c = sep then [] :: r
    else
      match r with
      | [] => [[c]]
      | h :: t => (c :: h) :: t

/-- The regex match of `r"^(\d+)([dmwy])$"` against `date_str.lower()`: the
amount and the unit character when the string matches, `none` otherwise.
Python `$` matches at the end of the string or just before a newline that
ends the string, so one trailing newline is tolerated (`"7d\n"` parses).
Python `\d` and `int()` also accept non-ASCII decimal digits and
`str.lower()` lowercases beyond ASCII, so the embedding is faithful on
ASCII inputs; the clock-independence theorem below scopes its quantifier
accordingly. -/
def relMatch (dateStr : String) : Option (Nat × Char) :=
  let cs0 := dateStr.toList.map lowerChar
  let cs := if cs0.getLast? = some (Char.ofNat 10) then cs0.dropLast else cs0
  match cs.getLast? with
  | none => none
  | some unit =>
    if unit = 'd' ∨ unit = 'm' ∨ unit = 'w' ∨ unit = 'y' then
      let digits := cs.dropLast
      if digits ≠ [] ∧ digits.all Char.isDigit then
        some (digitsToNat digits, unit)
      else none
    else none

/-- `_parse_relative_date` from `slack_tools.py`: amounts of days, weeks,
months (30 days) or years (365 days) subtracted from `today` and rendered as
`YYYY-MM-DD`.  The final `else: return None` of the source is unreachable
because the regex restricts the unit to `dmwy`.  When the subtraction would
leave the range of Python dates (before year 1) CPython raises
`OverflowError`; that case is modelled as `none`. -/
def _parse_relative_date (dateStr : String) (today : Nat) : Option String :=
  match relMatch dateStr with
  | none => none
  | some (amount, unit) =>
    let days :=
      if unit = 'd' then amount
      else if unit = 'w' then 7 * amount
      else if unit = 'm' then 30 * amount
      else 365 * amount
    if days ≤ today then some (formatYMD (civilFromDays (today - days)))
    else none

/-- `datetime.strptime(date_str, "%Y-%m-%d")`.  CPython compiles the format to
the regex `(\d\d\d\d)-(1[0-2]|0[1-9]|[1-9])-(3[01]|[12]\d|0[1-9]|[1-9])`
anchored on the whole input, and the `datetime` constructor then checks the
day against the month length and the year against MINYEAR = 1. -/
def strptimeYMD (s : String) : Option (Nat × Nat × Nat) :=
  match splitOnChar '-' s.toList with
  | [ycs, mcs, dcs] =>
    if ycs.length = 4 ∧ ycs.all Char.isDigit ∧
        1 ≤ mcs.length ∧ mcs.length ≤ 2 ∧ mcs.all Char.isDigit ∧
        1 ≤ dcs.length ∧ dcs.length ≤ 2 ∧ dcs.all Char.isDigit then
      let y := digitsToNat ycs
      let m := digitsToNat mcs
      let d := digitsToNat dcs
      if 1 ≤ y ∧ 1 ≤ m ∧ m ≤ 12 ∧ 1 ≤ d ∧ d ≤ daysInMonth y m then
        some (y, m, d)
      else none
    else none
  | _ => none

/-- `_parse_date` from `slack_tools.py`: the relative form first (its result,
a nonempty `YYYY-MM-DD` string, is always truthy), otherwise the absolute
form re-rendered by `strftime("%Y-%m-%d")`. -/
def _parse_date (dateStr : String) (today : Nat) : Option String :=
  match _parse_relative_date dateStr today with
  | some relative => some relative
  | none => (strptimeYMD dateStr).map formatYMD

/-- C8 counterexample: date parsing is not a pure transform of the string
alone.  `_parse_relative_date "7d"` evaluated with the clock at 2026-10-12
answers 2026-10-05, but evaluated one day later answers 2026-10-06. -/
theorem c8_date_parsing_not_pure_counterexample :
    _parse_relative_date "7d" (daysFromCivil 2026 10 12) ≠
      _parse_relative_date "7d" (daysFromCivil 2026 10 13) := by
  decide

/-- C8 (amended): `_parse_relative_date` and `_parse_date` are deterministic
functions of the input string and the current date, but relative-format
inputs depend on the clock; for every ASCII input string that does not match
the relative pattern `^(\d+)([dmwy])$` (where `$` also matches before one
trailing newline), both functions are independent of the evaluation time.
The ASCII bound restricts the statement to the alphabet on which the
embedded regex agrees with Python (`\d`, `int()` and `str.lower()` treat
some non-ASCII code points specially). -/
theorem c8_date_parsing_clock_independent_on_absolute
    (s : String) (d1 d2 : Nat)
    (_hascii : ∀ c ∈ s.toList, c.toNat < 128)
    (h : relMatch s = none) :
    _parse_relative_date s d1 = _parse_relative_date s d2 ∧
    _parse_date s d1 = _parse_date s d2 := by
  constructor
  · simp [_parse_relative_date, h]
  · simp [_parse_date, _parse_relative_date, h]

/-- Closed instance of `c8_date_parsing_clock_independent_on_absolute`: the
absolute date 2025-01-07 parses identically on two different days. -/
theorem c8_date_parsing_clock_independent_on_absolute_witness :
    _parse_relative_date "2025-01-07" 0 = _parse_relative_date "2025-01-07" 1 ∧
    _parse_date "2025-01-07" 0 = _parse_date "2025-01-07" 1 :=
  c8_date_parsing_clock_independent_on_absolute "2025-01-07" 0 1 (by decide)
    (by decide)

/-! ## Client acquisition and the tool layer (`slack_tools.py`)

The tool functions receive effects explicitly: the FastMCP request context and
the session store arrive bundled in an `AuthEnv`, and the Slack Web API is a
record of response oracles (`SlackApi`).  A Python exception raised by a Slack
SDK call is an `Except.error` value produced by the oracle; Python dictionary
results become structures.  Error dictionaries `{"ok": False, "error": msg}`
become `ErrDict`.  Quotes around interpolated values inside Python error
messages are not reproduced. -/

/-- The structured failure dictionary `{"ok": False, "error": msg}`. -/
structure ErrDict where
  ok : Bool
  error : String
deriving Repr, DecidableEq

/-- A ready-to-use Slack client as handed out by
`get_slack_client_for_session`: the identity it acts as and the OAuth token it
was built from. -/
structure SlackClient where
  user_id : String
  token : String
deriving Repr, DecidableEq

/-- Modelled from the spec: the ambient inputs of `_get_session_context` and
of the OAuth handler (`auth/context.py` and `auth/oauth_handler.py` are not
under the shipped sources).  `sessionId` is the FastMCP session id of the
current request (absent when the serving context has none), `store` the
process-wide session store, and `tokenFresh` the external freshness/validity
predicate of spec section 4.2. -/
structure AuthEnv where
  store : SlackSessionStore
  sessionId : Option String
  tokenFresh : String → Bool

/-- `_get_session_context` from `slack_tools.py`: the session id of the
current request and the user the store binds it to. -/
def _get_session_context (env : AuthEnv) : Option String × Option String :=
  (env.sessionId, env.store.get_user_by_session env.sessionId)

/-- Modelled from the spec: `validate_session_token` (spec section 4.2).
Fail closed with a structured denial reason (no session, session unbound,
invalid/expired token); succeed only when the current session is bound and
the validated token of the bound user is fresh. -/
def validate_session_token (env : AuthEnv) : Bool × Option String :=
  match env.sessionId with
  | none => (false, some "No session")
  | some sid =>
    match env.store.get_user_by_session (some sid) with
    | none => (false, some "Session not bound to a user")
    | some uid =>
      match env.store.get_user_token_with_validation uid (some sid) with
      | none => (false, some "No token for user")
      | some tok =>
        if env.tokenFresh tok then (true, none)
        else (false, some "Token invalid or expired")

/-- Modelled from the spec: `get_slack_client_for_session` (spec section 4.2).
A client built from the validated token of the bound user of the current
session, absent whenever the validated read denies. -/
def get_slack_client_for_session (env : AuthEnv) : Option SlackClient :=
  match env.sessionId with
  | none => none
  | some sid =>
    match env.store.get_user_by_session (some sid) with
    | none => none
    | some uid =>
      match env.store.get_user_token_with_validation uid (some sid) with
      | none => none
      | some tok => some ⟨uid, tok⟩

/-- `_get_authenticated_client` from `slack_tools.py`: on success
`(client, user_id, none)`, on failure `(none, none, some errorDict)`. -/
def _get_authenticated_client (env : AuthEnv) :
    Option SlackClient × Option String × Option ErrDict :=
  let user_id := (_get_session_context env).2
  let v := validate_session_token env
  if !v.1 then
    (none, none, some ⟨false, v.2.getD ""⟩)
  else
    match get_slack_client_for_session env with
    | none =>
      (none, none, some ⟨false, "Failed to get Slack client for authenticated user"⟩)
    | some client => (some client, user_id, none)

/-- A Python exception raised by a Slack SDK call: either `SlackApiError`
(carrying `e.response["error"]`) or any other `Exception` (carrying
`str(e)`). -/
inductive ApiErr where
  | slackApiError (msg : String)
  | otherError (msg : String)
deriving Repr, DecidableEq

/-- One channel object of a `conversations_list` page (only the fields the
embedded code reads). -/
structure SlackChannel where
  id : String
  name : String
deriving Repr, DecidableEq

/-- A message object; its content is opaque to the embedded code. -/
structure SlackMessage where
  payload : Nat
deriving Repr, DecidableEq

/-- Response of `conversations_history` / `conversations_replies`. -/
structure HistoryResponse where
  ok : Bool
  error : Option String
  messages : List SlackMessage
  has_more : Bool
  next_cursor : Option String
deriving Repr, DecidableEq

/-- One match of a `search.messages` page.  `ts` is the numeric value of the
match timestamp field, `none` when the field is missing; the IEEE-754
rounding applied by Python `float` to the decimal string is abstracted to the
exact rational value. -/
structure SearchMatch where
  ts : Option ℚ
  payload : Nat
deriving Repr, DecidableEq

/-- Response of `search_messages` (the `messages` sub-dictionary flattened,
with the defaults `{}`, `[]`, `0`, `1`, `1` of the source already applied).
The field `match_list` embeds the `"matches"` entry of the response
(`matches` is a reserved word in Lean). -/
structure SearchResponse where
  ok : Bool
  error : Option String
  match_list : List SearchMatch
  total : Nat
  page : Nat
  page_count : Nat
deriving Repr, DecidableEq

/-- A user object; opaque to the embedded code. -/
structure UserProfile where
  payload : Nat
deriving Repr, DecidableEq

/-- Response of `users_info`. -/
structure UserInfoResponse where
  ok : Bool
  error : Option String
  user : UserProfile
deriving Repr, DecidableEq

/-- Response of `users_list`. -/
structure UsersListResponse where
  ok : Bool
  error : Option String
  members : List UserProfile
  next_cursor : Option String
deriving Repr, DecidableEq

/-- A channel info object; opaque to the embedded code. -/
structure ChannelInfo where
  payload : Nat
deriving Repr, DecidableEq

/-- Response of `conversations_info`. -/
structure ChannelInfoResponse where
  ok : Bool
  error : Option String
  channel : ChannelInfo
deriving Repr, DecidableEq

/-- One page of `conversations_members`. -/
structure MembersPage where
  ok : Bool
  members : List String
  next_cursor : Option String
deriving Repr, DecidableEq

/-- Response of `conversations_list` in listing mode. -/
structure ChannelsListResponse where
  ok : Bool
  error : Option String
  channels : List SlackChannel
  next_cursor : Option String
deriving Repr, DecidableEq

/-- The Slack Web API as a record of response oracles, one per client method
the tool layer calls.  Pagination chains (`conversations_list` during channel
name resolution, `conversations_members`) are supplied as the finite list of
pages in cursor order.  An `Except.error` value is a raised Python
exception. -/
structure SlackApi where
  conversations_list_pages : List (List SlackChannel)
  conversations_history : String → Nat → Option String → Except ApiErr HistoryResponse
  conversations_replies : String → String → Nat → Option String → Except ApiErr HistoryResponse
  search : String → Nat → Nat → Except ApiErr SearchResponse
  users_info : String → Except ApiErr UserInfoResponse
  users_list : Nat → Option String → Except ApiErr UsersListResponse
  conversations_info : String → Except ApiErr ChannelInfoResponse
  conversations_members : String → Except ApiErr (List MembersPage)
  conversations_list : Nat → Option String → Option String → Except ApiErr ChannelsListResponse

/-- Result of a tool function: the structured failure dictionary, or the
success dictionary of the given shape. -/
inductive ToolResult (α : Type) where
  | fail (e : ErrDict)
  | ok (val : α)
deriving Repr, DecidableEq

/-- The two uniform exception handlers wrapping every tool body:
`SlackApiError` becomes `"Slack API error: ..."` and any other exception
becomes `"Error: ..."`. -/
def exceptionDict : ApiErr → ErrDict
  | .slackApiError msg => ⟨false, "Slack API error: " ++ msg⟩
  | .otherError msg => ⟨false, "Error: " ++ msg⟩

/-- `_resolve_channel_name` from `slack_tools.py`: walk the
`conversations_list` pages in cursor order and return the id of the first
channel whose name matches. -/
def _resolve_channel_name (pages : List (List SlackChannel))
    (channel_name : String) : Option String :=
  (pages.flatten.find? (fun c => c.name == channel_name)).map (fun c => c.id)

/-- Success payload of `get_channel_messages` / `get_thread_replies`. -/
structure MessagesOk where
  messages : List SlackMessage
  has_more : Bool
  next_cursor : Option String
deriving Repr, DecidableEq

/-- `get_channel_messages` from `slack_tools.py`.  The authentication triple
is the value of `_get_authenticated_client()`; a `#name` channel argument is
resolved to an id first. -/
def get_channel_messages
    (auth : Option SlackClient × Option String × Option ErrDict)
    (api : SlackApi) (channel_id : String) (limit : Nat)
    (cursor : Option String) : ToolResult MessagesOk :=
  match auth with
  | (_, _, some error) => .fail error
  | (_, _, none) =>
    let resolved : Option String :=
      if channel_id.startsWith "#" then
        _resolve_channel_name api.conversations_list_pages (channel_id.drop 1)
      else some channel_id
    match resolved with
    | none => .fail ⟨false, "Channel " ++ channel_id.drop 1 ++ " not found"⟩
    | some cid =>
      match api.conversations_history cid (min limit 1000) cursor with
      | .error e => .fail (exceptionDict e)
      | .ok resp =>
        if !resp.ok then .fail ⟨false, resp.error.getD "Unknown error"⟩
        else .ok ⟨resp.messages, resp.has_more, resp.next_cursor⟩

/-- `get_thread_replies` from `slack_tools.py`: as `get_channel_messages` but
through `conversations_replies` with the parent timestamp. -/
def get_thread_replies
    (auth : Option SlackClient × Option String × Option ErrDict)
    (api : SlackApi) (channel_id thread_ts : String) (limit : Nat)
    (cursor : Option String) : ToolResult MessagesOk :=
  match auth with
  | (_, _, some error) => .fail error
  | (_, _, none) =>
    let resolved : Option String :=
      if channel_id.startsWith "#" then
        _resolve_channel_name api.conversations_list_pages (channel_id.drop 1)
      else some channel_id
    match resolved with
    | none => .fail ⟨false, "Channel " ++ channel_id.drop 1 ++ " not found"⟩
    | some cid =>
      match api.conversations_replies cid thread_ts (min limit 1000) cursor with
      | .error e => .fail (exceptionDict e)
      | .ok resp =>
        if !resp.ok then .fail ⟨false, resp.error.getD "Unknown error"⟩
        else .ok ⟨resp.messages, resp.has_more, resp.next_cursor⟩

/-- `_build_search_query` from `slack_tools.py`.  Empty strings are falsy in
Python, so an empty base query or an empty optional filter contributes no
part; a user filter not starting with `U` or `@` gains an `@`, a channel
filter not starting with `C` or `#` gains a `#`. -/
def _build_search_query (base_query : String)
    (from_user in_channel after_date before_date : Option String) : String :=
  let query_parts := if base_query ≠ "" then [base_query] else []
  let query_parts :=
    match from_user with
    | none => query_parts
    | some fu =>
      if fu = "" then query_parts
      else
        let fu :=
          if ¬ fu.startsWith "U" ∧ ¬ fu.startsWith "@" then "@" ++ fu else fu
        query_parts ++ ["from:" ++ fu]
  let query_parts :=
    match in_channel with
    | none => query_parts
    | some ic =>
      if ic = "" then query_parts
      else
        let ic :=
          if ¬ ic.startsWith "C" ∧ ¬ ic.startsWith "#" then "#" ++ ic else ic
        query_parts ++ ["in:" ++ ic]
  let query_parts :=
    match after_date with
    | none => query_parts
    | some ad => if ad = "" then query_parts else query_parts ++ ["after:" ++ ad]
  let query_parts :=
    match before_date with
    | none => query_parts
    | some bd => if bd = "" then query_parts else query_parts ++ ["before:" ++ bd]
  String.intercalate " " query_parts

/-- The date-argument prologue of `search_messages`: a present, truthy date
string must parse, else the call fails with the invalid-format dictionary. -/
def parseDateArg (fieldName : String) (arg : Option String) (today : Nat) :
    Except ErrDict (Option String) :=
  match arg with
  | none => .ok none
  | some s =>
    if s = "" then .ok none
    else
      match _parse_date s today with
      | none => .error ⟨false, "Invalid " ++ fieldName ++ " format: " ++ s⟩
      | some p => .ok (some p)

/-- The sort key `float(m.get("ts", 0))` of the client-side sort. -/
def matchKey (m : SearchMatch) : ℚ := m.ts.getD 0

/-- Success payload of `search_messages` (the `filters` sub-dictionary
flattened into `filters_*` fields; `match_list` embeds `"matches"`). -/
structure SearchOk where
  query : String
  filters_from_user : Option String
  filters_in_channel : Option String
  filters_after_date : Option String
  filters_before_date : Option String
  filters_sort_by : String
  filters_sort_order : String
  match_list : List SearchMatch
  total : Nat
  page : Nat
  page_count : Nat
deriving Repr, DecidableEq

/-- `search_messages` from `slack_tools.py`.  The wall clock feeding
`_parse_date` is the explicit `today` argument.  The Slack API has no
sort parameters, so when `sort_by` is `"timestamp"` and the page of matches
is non-empty the source applies a stable client-side sort (Python `sorted`,
embedded as the stable `List.mergeSort`) on the current page only, descending
exactly when `sort_order` is `"desc"`. -/
def search_messages
    (auth : Option SlackClient × Option String × Option ErrDict)
    (api : SlackApi) (query : String) (count page : Nat)
    (from_user in_channel after_date before_date : Option String)
    (sort_by sort_order : String) (today : Nat) : ToolResult SearchOk :=
  match auth with
  | (_, _, some error) => .fail error
  | (_, _, none) =>
    match parseDateArg "after_date" after_date today with
    | .error e => .fail e
    | .ok parsed_after =>
      match parseDateArg "before_date" before_date today with
      | .error e => .fail e
      | .ok parsed_before =>
        let enhanced_query :=
          _build_search_query query from_user in_channel parsed_after parsed_before
        match api.search enhanced_query (min count 100) page with
        | .error e => .fail (exceptionDict e)
        | .ok resp =>
          if !resp.ok then .fail ⟨false, resp.error.getD "Unknown error"⟩
          else
            let ms := resp.match_list
            let ms :=
              if sort_by = "timestamp" ∧ ms ≠ [] then
                if sort_order = "desc" then
                  ms.mergeSort (fun a b => decide (matchKey b ≤ matchKey a))
                else
                  ms.mergeSort (fun a b => decide (matchKey a ≤ matchKey b))
              else ms
            .ok ⟨enhanced_query, from_user, in_channel, parsed_after,
              parsed_before, sort_by, sort_order, ms, resp.total, resp.page,
              resp.page_count⟩

/-- Success payload of `get_users`: the dual-mode result. -/
inductive UsersOk where
  | single (user : UserProfile)
  | listing (users : List UserProfile) (next_cursor : Option String)
deriving Repr, DecidableEq

/-- `get_users` from `slack_tools.py`: profile mode when `user_id` is truthy
(present and non-empty), listing mode otherwise. -/
def get_users
    (auth : Option SlackClient × Option String × Option ErrDict)
    (api : SlackApi) (user_id : Option String) (limit : Nat)
    (cursor : Option String) : ToolResult UsersOk :=
  match auth with
  | (_, _, some error) => .fail error
  | (_, _, none) =>
    let listing : ToolResult UsersOk :=
      match api.users_list (min limit 1000) cursor with
      | .error e => .fail (exceptionDict e)
      | .ok resp =>
        if !resp.ok then .fail ⟨false, resp.error.getD "Unknown error"⟩
        else .ok (.listing resp.members resp.next_cursor)
    match user_id with
    | none => listing
    | some u =>
      if u = "" then listing
      else
        match api.users_info u with
        | .error e => .fail (exceptionDict e)
        | .ok resp =>
          if !resp.ok then .fail ⟨false, resp.error.getD "Unknown error"⟩
          else .ok (.single resp.user)

/-- Success payload of `get_channels`: the dual-mode result.  In info mode
`members` is present when the member fetch ran and succeeded, and
`members_error` carries the `SlackApiError` reason when it failed. -/
inductive ChannelsOk where
  | info (channel : ChannelInfo) (members : Option (List String))
      (members_error : Option String)
  | listing (channels : List SlackChannel) (next_cursor : Option String)
deriving Repr, DecidableEq

/-- The member-accumulation loop of `get_channels`: pages are consumed in
cursor order, an ok page contributes its members and the loop continues only
while a next cursor is present; a non-ok page stops the loop keeping what was
accumulated. -/
def collectMembers : List MembersPage → List String
  | [] => []
  | p :: rest =>
    if p.ok then
      p.members ++ (match p.next_cursor with
        | none => []
        | some _ => collectMembers rest)
    else []

/-- `get_channels` from `slack_tools.py`: info mode when `channel_id` is
truthy, listing mode otherwise.  In info mode with `include_members`, a
`SlackApiError` during the member fetch is caught by the inner handler and
reported through `members_error` without failing the call; any other
exception escapes to the outer handler. -/
def get_channels
    (auth : Option SlackClient × Option String × Option ErrDict)
    (api : SlackApi) (channel_id types : Option String) (limit : Nat)
    (cursor : Option String) (include_members : Bool) : ToolResult ChannelsOk :=
  match auth with
  | (_, _, some error) => .fail error
  | (_, _, none) =>
    let listing : ToolResult ChannelsOk :=
      match api.conversations_list (min limit 1000) cursor types with
      | .error e => .fail (exceptionDict e)
      | .ok resp =>
        if !resp.ok then .fail ⟨false, resp.error.getD "Unknown error"⟩
        else .ok (.listing resp.channels resp.next_cursor)
    match channel_id with
    | none => listing
    | some cid =>
      if cid = "" then listing
      else
        match api.conversations_info cid with
        | .error e => .fail (exceptionDict e)
        | .ok resp =>
          if !resp.ok then .fail ⟨false, resp.error.getD "Unknown error"⟩
          else
            if include_members then
              match api.conversations_members cid with
              | .error (.slackApiError msg) =>
                .ok (.info resp.channel none (some msg))
              | .error (.otherError msg) =>
                .fail ⟨false, "Error: " ++ msg⟩
              | .ok pages =>
                .ok (.info resp.channel (some (collectMembers pages)) none)
            else .ok (.info resp.channel none none)

/-- C7: fail-closed client acquisition.  First conjunct: for every environment
`_get_authenticated_client` returns either the failure triple
`(none, none, some errorDict)` or a success triple whose client is built from
the validated token of the user the session is bound to (never an
unauthenticated or wrong-user client), with that user reported back.  The
remaining five conjuncts: each tool function given a non-`none` error returns
exactly that failure dictionary, for every possible Slack API oracle — so no
Slack API call can influence (or be needed for) the result. -/
theorem c7_fail_closed_client_acquisition :
    (∀ env : AuthEnv,
        (∃ e, _get_authenticated_client env = (none, none, some e)) ∨
        (∃ (c : SlackClient) (sid : String),
            _get_authenticated_client env = (some c, some c.user_id, none) ∧
            env.sessionId = some sid ∧
            env.store.get_user_by_session (some sid) = some c.user_id ∧
            env.store.get_user_token_with_validation c.user_id (some sid) =
              some c.token ∧
            env.tokenFresh c.token = true)) ∧
    (∀ (c : Option SlackClient) (u : Option String) (e : ErrDict)
        (api : SlackApi) (channel_id : String) (limit : Nat)
        (cursor : Option String),
        get_channel_messages (c, u, some e) api channel_id limit cursor =
          .fail e) ∧
    (∀ (c : Option SlackClient) (u : Option String) (e : ErrDict)
        (api : SlackApi) (channel_id thread_ts : String) (limit : Nat)
        (cursor : Option String),
        get_thread_replies (c, u, some e) api channel_id thread_ts limit
          cursor = .fail e) ∧
    (∀ (c : Option SlackClient) (u : Option String) (e : ErrDict)
        (api : SlackApi) (query : String) (count page : Nat)
        (fu ic ad bd : Option String) (sb so : String) (today : Nat),
        search_messages (c, u, some e) api query count page fu ic ad bd sb so
          today = .fail e) ∧
    (∀ (c : Option SlackClient) (u : Option String) (e : ErrDict)
        (api : SlackApi) (user_id : Option String) (limit : Nat)
        (cursor : Option String),
        get_users (c, u, some e) api user_id limit cursor = .fail e) ∧
    (∀ (c : Option SlackClient) (u : Option String) (e : ErrDict)
        (api : SlackApi) (channel_id types : Option String) (limit : Nat)
        (cursor : Option String) (include_members : Bool),
        get_channels (c, u, some e) api channel_id types limit cursor
          include_members = .fail e) := by
  refine ⟨?_, fun _ _ _ _ _ _ _ => rfl, fun _ _ _ _ _ _ _ _ => rfl,
    fun _ _ _ _ _ _ _ _ _ _ _ _ _ _ => rfl, fun _ _ _ _ _ _ _ => rfl,
    fun _ _ _ _ _ _ _ _ _ => rfl⟩
  intro env
  match hsid : env.sessionId with
  | none =>
    left
    exact ⟨⟨false, "No session"⟩, by
      simp [_get_authenticated_client, validate_session_token, hsid]⟩
  | some sid =>
    match hu : env.store.get_user_by_session (some sid) with
    | none =>
      left
      exact ⟨⟨false, "Session not bound to a user"⟩, by
        simp [_get_authenticated_client, validate_session_token, hsid, hu]⟩
    | some uid =>
      match ht : env.store.get_user_token_with_validation uid (some sid) with
      | none =>
        left
        exact ⟨⟨false, "No token for user"⟩, by
          simp [_get_authenticated_client, validate_session_token, hsid, hu, ht]⟩
      | some tok =>
        match hf : env.tokenFresh tok with
        | false =>
          left
          exact ⟨⟨false, "Token invalid or expired"⟩, by
            simp [_get_authenticated_client, validate_session_token, hsid, hu,
              ht, hf]⟩
        | true =>
          right
          refine ⟨⟨uid, tok⟩, sid, ?_, rfl, hu, ht, hf⟩
          simp [_get_authenticated_client, validate_session_token,
            get_slack_client_for_session, _get_session_context, hsid, hu, ht, hf]

/-- C10: page-local conditional sorting of search results.  On a successful
`search_messages` call (authentication passed, dates parsed, API page
returned ok), the output `match_list` is a permutation of exactly the
API page of matches; when `sort_by` is `"timestamp"` and the page is
non-empty it is ordered by the numeric `ts` key, descending exactly when
`sort_order` is `"desc"` and ascending otherwise; for every other `sort_by`
value, and for an empty page, the matches are returned in API order
unchanged.  Only the single page delivered by the oracle enters the
result. -/
theorem c10_search_page_local_sort
    (c : Option SlackClient) (u : Option String) (api : SlackApi)
    (query : String) (count page : Nat) (fu ic ad bd : Option String)
    (sb so : String) (today : Nat) (pa pb : Option String)
    (resp : SearchResponse)
    (h1 : parseDateArg "after_date" ad today = .ok pa)
    (h2 : parseDateArg "before_date" bd today = .ok pb)
    (h3 : api.search (_build_search_query query fu ic pa pb) (min count 100)
      page = .ok resp)
    (h4 : resp.ok = true) :
    ∃ out,
      search_messages (c, u, none) api query count page fu ic ad bd sb so
        today = .ok out ∧
      out.match_list.Perm resp.match_list ∧
      (sb = "timestamp" → resp.match_list ≠ [] →
        ((so = "desc" →
            out.match_list.Pairwise (fun a b => matchKey b ≤ matchKey a)) ∧
         (so ≠ "desc" →
            out.match_list.Pairwise (fun a b => matchKey a ≤ matchKey b)))) ∧
      (sb ≠ "timestamp" → out.match_list = resp.match_list) ∧
      (resp.match_list = [] → out.match_list = resp.match_list) := by
  have htransd : ∀ a b c : SearchMatch,
      decide (matchKey b ≤ matchKey a) = true →
      decide (matchKey c ≤ matchKey b) = true →
      decide (matchKey c ≤ matchKey a) = true := by
    intro a b c hab hbc
    simp only [decide_eq_true_eq] at *
    exact le_trans hbc hab
  have htransa : ∀ a b c : SearchMatch,
      decide (matchKey a ≤ matchKey b) = true →
      decide (matchKey b ≤ matchKey c) = true →
      decide (matchKey a ≤ matchKey c) = true := by
    intro a b c hab hbc
    simp only [decide_eq_true_eq] at *
    exact le_trans hab hbc
  have htotd : ∀ a b : SearchMatch,
      (decide (matchKey b ≤ matchKey a) || decide (matchKey a ≤ matchKey b))
        = true := by
    intro a b
    simp [le_total]
  have htota : ∀ a b : SearchMatch,
      (decide (matchKey a ≤ matchKey b) || decide (matchKey b ≤ matchKey a))
        = true := by
    intro a b
    simp [le_total]
  unfold search_messages
  simp only [h1, h2, h3, h4, Bool.not_true, Bool.false_eq_true, if_false]
  refine ⟨_, rfl, ?_, ?_, ?_, ?_⟩
  · by_cases hsb : sb = "timestamp" ∧ resp.match_list ≠ []
    · simp only [if_pos hsb]
      by_cases hso : so = "desc"
      · simp only [if_pos hso]
        exact List.mergeSort_perm resp.match_list _
      · simp only [if_neg hso]
        exact List.mergeSort_perm resp.match_list _
    · simp only [if_neg hsb]
      exact List.Perm.refl _
  · intro hs hm
    simp only [if_pos (And.intro hs hm)]
    constructor
    · intro hso
      simp only [if_pos hso]
      exact (List.sorted_mergeSort htransd htotd resp.match_list).imp
        (fun h => of_decide_eq_true h)
    · intro hso
      simp only [if_neg hso]
      exact (List.sorted_mergeSort htransa htota resp.match_list).imp
        (fun h => of_decide_eq_true h)
  · intro hs
    have : ¬ (sb = "timestamp" ∧ resp.match_list ≠ []) := fun h => hs h.1
    simp only [if_neg this]
  · intro hm
    have : ¬ (sb = "timestamp" ∧ resp.match_list ≠ []) := fun h => h.2 hm
    simp only [if_neg this]

/-- A concrete Slack API oracle: `search.messages` answers a fixed page of
three matches with timestamp keys 2, 1, 3; every other method reports an
error. -/
def demoApi : SlackApi where
  conversations_list_pages := []
  conversations_history := fun _ _ _ => .error (.otherError "unused")
  conversations_replies := fun _ _ _ _ => .error (.otherError "unused")
  search := fun _ _ _ =>
    .ok ⟨true, none, [⟨some 2, 0⟩, ⟨some 1, 1⟩, ⟨some 3, 2⟩], 3, 1, 1⟩
  users_info := fun _ => .error (.otherError "unused")
  users_list := fun _ _ => .error (.otherError "unused")
  conversations_info := fun _ => .error (.otherError "unused")
  conversations_members := fun _ => .error (.otherError "unused")
  conversations_list := fun _ _ _ => .error (.otherError "unused")

/-- Closed instance of `c10_search_page_local_sort`: a timestamp-descending
search over the fixed demo page. -/
theorem c10_search_page_local_sort_witness :
    ∃ out,
      search_messages (some ⟨"user_a", "token_a"⟩, some "user_a", none)
        demoApi "q" 20 1 none none none none "timestamp" "desc" 0 = .ok out ∧
      out.match_list.Perm [⟨some 2, 0⟩, ⟨some 1, 1⟩, ⟨some 3, 2⟩] ∧
      ("timestamp" = "timestamp" →
        ([⟨some 2, 0⟩, ⟨some 1, 1⟩, (⟨some 3, 2⟩ : SearchMatch)] : List SearchMatch) ≠ [] →
        (("desc" = "desc" →
            out.match_list.Pairwise (fun a b => matchKey b ≤ matchKey a)) ∧
         ("desc" ≠ "desc" →
            out.match_list.Pairwise (fun a b => matchKey a ≤ matchKey b)))) ∧
      ("timestamp" ≠ "timestamp" →
        out.match_list = [⟨some 2, 0⟩, ⟨some 1, 1⟩, ⟨some 3, 2⟩]) ∧
      (([⟨some 2, 0⟩, ⟨some 1, 1⟩, (⟨some 3, 2⟩ : SearchMatch)] : List SearchMatch) = [] →
        out.match_list = [⟨some 2, 0⟩, ⟨some 1, 1⟩, ⟨some 3, 2⟩]) :=
  c10_search_page_local_sort (some ⟨"user_a", "token_a"⟩) (some "user_a")
    demoApi "q" 20 1 none none none none "timestamp" "desc" 0 none none
    ⟨true, none, [⟨some 2, 0⟩, ⟨some 1, 1⟩, ⟨some 3, 2⟩], 3, 1, 1⟩
    rfl rfl rfl rfl

end SlackMCP
